import Mathlib

/-!
# MoodAPI — verification of the core spec against the code

Shallow embedding of the MoodAPI repository's behaviour.  The repository's
`src/` tree contains the React/TypeScript frontend (`frontend/src`), the API
client (`services/api.ts`), the README documents and the Dockerfile; the
Python backend (ResultCache, RateLimiter, RecordStore, AnalyticsAggregator)
is not under `src/`, so those components are modelled from the spec where a
claim depends on them, each such definition marked `Modelled from the spec:`.

Numbers: JavaScript numbers are modelled as `ℚ` (confidence scores) or
`Nat`/`Int` (counts, day arguments); strings as `String`.
-/

/-- The closed sentiment label set, from `frontend/src/types` (`Sentiment`). -/
inductive Sentiment where
  | positive
  | neutral
  | negative
deriving DecidableEq

/-- One label/score pair, from `frontend/src/types` (`SentimentScore`). -/
structure SentimentScore where
  label : Sentiment
  score : ℚ
deriving DecidableEq

/-- A history item as delivered by the backend's `/history` endpoint, from
`frontend/src/types` (`HistoryItem`): `text` is a (possibly empty) string and
`text_preview` is optional. -/
structure HistoryItem where
  id : String
  text : String
  text_preview : Option String
  sentiment : Sentiment
  confidence : ℚ
  language : String
  created_at : String
  all_scores : Option (List SentimentScore)
deriving DecidableEq

/-- Pagination metadata of a history response, from `frontend/src/types`
(`PaginationMeta`); only the field the claims read (`total`) is carried. -/
structure PaginationMeta where
  total : Nat
deriving DecidableEq

/-- A `/history` response as received by the API client, from
`frontend/src/types` (`HistoryResponse`). -/
structure HistoryResponse where
  items : List HistoryItem
  pagination : PaginationMeta
deriving DecidableEq

/-! ## ApiService.getStats — days → period mapping (services/api.ts) -/

/-- The period-string computation of `ApiService.getStats`:
`let period = '30d'; if (days <= 7) period = '7d'; else if (days <= 30)
period = '30d'; else if (days <= 90) period = '90d'; else period = '1y';`.
The `days` argument is a JavaScript number, modelled as `Int`. -/
def getStatsPeriod (days : Int) : String :=
  if days ≤ 7 then "7d"
  else if days ≤ 30 then "30d"
  else if days ≤ 90 then "90d"
  else "1y"

/-! ## ApiService.getHistory — text_preview mapping (services/api.ts) -/

/-- The per-item mapping of `ApiService.getHistory`:
`{ ...item, text: item.text || item.text_preview || '' }`.
JavaScript `||` takes the right operand when the left is falsy: the empty
string for `text`, `undefined` (here `none`) for `text_preview`. -/
def mapHistoryItem (item : HistoryItem) : HistoryItem :=
  { item with
    text := if item.text = "" then (item.text_preview.getD "") else item.text }

/-- The map `ApiService.getHistory` applies: it rewrites every item of the response through
`mapHistoryItem` and leaves the rest of the response unchanged. -/
def getHistoryMap (resp : HistoryResponse) : HistoryResponse :=
  { resp with items := resp.items.map mapHistoryItem }

/-! ## Backend record model (modelled from the spec, §3 and §4.4–4.5) -/

/-- Modelled from the spec: the backend's `AnalysisRecord` (spec §3); the
backend code is not under `src/`.  `created_at` is a day index (the claims
only bucket records by day), `confidence` a rational in `[0,1]`. -/
structure AnalysisRecord where
  id : Nat
  text : String
  sentiment : Sentiment
  confidence : ℚ
  language : String
  all_scores : List SentimentScore
  created_at : Nat
  cached : Bool
deriving DecidableEq

/-- A record falls in the closed day range `[lo, hi]`. -/
def inRange (lo hi : Nat) (r : AnalysisRecord) : Bool :=
  decide (lo ≤ r.created_at) && decide (r.created_at ≤ hi)

/-- Modelled from the spec: `AnalyticsAggregator.distribution(timeRange)`
(spec §4.5) — the per-label count of in-range records; the backend
aggregator is not under `src/`. -/
def distributionCount (store : List AnalysisRecord) (lo hi : Nat)
    (s : Sentiment) : Nat :=
  (store.filter (fun r => inRange lo hi r && decide (r.sentiment = s))).length

/-- The sum of the three per-label counts of `distributionCount`. -/
def distSum (store : List AnalysisRecord) (lo hi : Nat) : Nat :=
  distributionCount store lo hi .positive
    + distributionCount store lo hi .neutral
    + distributionCount store lo hi .negative

/-- Modelled from the spec: the `totalCount` that `RecordStore.query`
(spec §4.4) reports for a pure date-range filter; the backend store is not
under `src/`. -/
def queryTotalCount (store : List AnalysisRecord) (lo hi : Nat) : Nat :=
  (store.filter (fun r => inRange lo hi r)).length

/-- Each in-range record carries exactly one of the three labels, so the
per-label counts sum to the in-range record count. -/
theorem distSum_eq_queryTotalCount (store : List AnalysisRecord)
    (lo hi : Nat) : distSum store lo hi = queryTotalCount store lo hi := by
  induction store with
  | nil => rfl
  | cons r rest ih =>
    by_cases hr : inRange lo hi r = true
    · cases hs : r.sentiment <;>
        simp only [distSum, distributionCount, queryTotalCount,
          List.filter_cons, hr, hs, Bool.true_and, decide_eq_true_eq,
          reduceCtorEq, List.length_cons, reduceIte] at ih ⊢ <;>
        omega
    · simp only [Bool.not_eq_true] at hr
      simp only [distSum, distributionCount, queryTotalCount,
        List.filter_cons, hr, Bool.false_and, if_false, reduceIte] at ih ⊢
      exact ih

/-! ## DashboardPage.loadData — stats fallback (pages/DashboardPage) -/

/-- The dashboard's `sentimentCount` tally: the number of fetched history
items carrying a given label (`DashboardPage.loadData`, sentiment
distribution loop). -/
def sentimentCount (items : List HistoryItem) (s : Sentiment) : Nat :=
  (items.filter (fun i => decide (i.sentiment = s))).length

/-- The stats object built by `DashboardPage.loadData` when `/stats` fails
(fields the claims read).  Mirrors the fallback block: `total_analyses =
historyRes.pagination?.total || items.length` (JavaScript `||`: the right
operand when the total is `0`), `high_confidence_percentage =
(items.filter(c => c.confidence >= 0.8).length / items.length) * 100`, and
the `sentiment_distribution` drawn from `sentimentCount`. -/
structure StatsFallback where
  total_analyses : Nat
  avg_confidence : ℚ
  high_confidence_percentage : ℚ
  dist_positive : Nat
  dist_negative : Nat
  dist_neutral : Nat
deriving DecidableEq

/-- The fallback stats computation of `DashboardPage.loadData` (runs only
when the fetched item list is non-empty; `ptotal` is
`historyRes.pagination?.total`, with an absent pagination object modelled
as `0`, which JavaScript's `||` treats the same way). -/
def fallbackStats (items : List HistoryItem) (ptotal : Nat) : StatsFallback :=
  { total_analyses := if ptotal = 0 then items.length else ptotal
    avg_confidence := (items.map (fun i => i.confidence)).sum
      / (items.length : ℚ)
    high_confidence_percentage :=
      (((items.filter (fun i => decide ((8 : ℚ)/10 ≤ i.confidence))).length : ℚ)
        / (items.length : ℚ)) * 100
    dist_positive := sentimentCount items .positive
    dist_negative := sentimentCount items .negative
    dist_neutral := sentimentCount items .neutral }

/-- The sum of the three per-label counts of the fallback distribution. -/
def fallbackDistSum (items : List HistoryItem) : Nat :=
  sentimentCount items .positive + sentimentCount items .negative
    + sentimentCount items .neutral

/-- The three labels partition the fetched items. -/
theorem fallbackDistSum_eq_length (items : List HistoryItem) :
    fallbackDistSum items = items.length := by
  induction items with
  | nil => rfl
  | cons i rest ih =>
    cases hs : i.sentiment <;>
      simp only [fallbackDistSum, sentimentCount, List.filter_cons, hs,
        decide_eq_true_eq, reduceCtorEq,
        List.length_cons, reduceIte] at ih ⊢ <;>
      omega

/-- The item used in the C1 counterexample: one of the 20 items of a full
dashboard history page (`DashboardPage.loadData` fetches `limit: 20`). -/
def cexItem : HistoryItem :=
  { id := "r1", text := "great", text_preview := none,
    sentiment := .positive, confidence := 9/10, language := "en",
    created_at := "2025-01-01", all_scores := none }

/-- C1 counterexample: a full dashboard page (20 items) drawn from a store
of 21 matching records (`pagination.total = 21`).  The fallback
distribution sums to 20, the fetched items, while the reported total is 21,
so the claimed equality fails on the stats-fallback path. -/
theorem dashboard_fallback_distribution_cex :
    (fallbackStats (List.replicate 20 cexItem) 21).dist_positive
      + (fallbackStats (List.replicate 20 cexItem) 21).dist_negative
      + (fallbackStats (List.replicate 20 cexItem) 21).dist_neutral
    ≠ (fallbackStats (List.replicate 20 cexItem) 21).total_analyses := by
  decide

/-- C1 (amended): for every time range the per-label counts of the spec's
`distribution` sum to `query`'s `totalCount` over the same range; the
dashboard's stats-fallback distribution sums to the number of fetched
items, which equals the total it reports exactly when the page contains all
matching records (`pagination.total = items.length`). -/
theorem distribution_sum_eq_totalCount (store : List AnalysisRecord)
    (lo hi : Nat) (items : List HistoryItem) (ptotal : Nat)
    (h : ptotal = items.length) :
    distSum store lo hi = queryTotalCount store lo hi
    ∧ fallbackDistSum items = (fallbackStats items ptotal).total_analyses := by
  refine ⟨distSum_eq_queryTotalCount store lo hi, ?_⟩
  subst h
  rw [fallbackDistSum_eq_length]
  simp [fallbackStats]

/-- C1 witness: concrete instantiation with one fetched item and a matching
reported total of 1. -/
theorem distribution_sum_eq_totalCount_witness :
    (1 : Nat) = [cexItem].length
    ∧ (distSum [] 0 0 = queryTotalCount [] 0 0
       ∧ fallbackDistSum [cexItem]
          = (fallbackStats [cexItem] 1).total_analyses) :=
  ⟨rfl, distribution_sum_eq_totalCount [] 0 0 [cexItem] 1 rfl⟩

/-! ## highConfidenceRatio (spec §4.5 stats; DashboardPage fallback) -/

/-- The number of in-range records with confidence at or above the fixed
threshold `0.8` (the comparison is `>=`, as in the dashboard fallback's
`item.confidence >= 0.8`). -/
def highConfCount (store : List AnalysisRecord) (lo hi : Nat) : Nat :=
  (store.filter (fun r =>
    inRange lo hi r && decide ((8 : ℚ)/10 ≤ r.confidence))).length

/-- Modelled from the spec: the `highConfidenceRatio` field of
`AnalyticsAggregator.stats` (spec §4.5) — the fraction of in-range records
with confidence at or above `0.8`; the backend aggregator is not under
`src/`. -/
def statsHighConfidenceRatio (store : List AnalysisRecord)
    (lo hi : Nat) : ℚ :=
  if queryTotalCount store lo hi = 0 then 0
  else (highConfCount store lo hi : ℚ) / (queryTotalCount store lo hi : ℚ)

/-- The spec's §8 scenario: three records with confidences 0.93 (day 1),
0.81 (day 1) and 0.6 (day 2). -/
def specScenarioStore : List AnalysisRecord :=
  [ { id := 1, text := "a", sentiment := .positive, confidence := 93/100,
      language := "en", all_scores := [], created_at := 1, cached := false },
    { id := 2, text := "b", sentiment := .negative, confidence := 81/100,
      language := "pt", all_scores := [], created_at := 1, cached := false },
    { id := 3, text := "c", sentiment := .positive, confidence := 6/10,
      language := "en", all_scores := [], created_at := 2, cached := false } ]

/-- The same three analyses as history items, as the dashboard fallback
sees them. -/
def specScenarioItems : List HistoryItem :=
  [ { id := "1", text := "a", text_preview := none, sentiment := .positive,
      confidence := 93/100, language := "en", created_at := "d1",
      all_scores := none },
    { id := "2", text := "b", text_preview := none, sentiment := .negative,
      confidence := 81/100, language := "pt", created_at := "d1",
      all_scores := none },
    { id := "3", text := "c", text_preview := none, sentiment := .positive,
      confidence := 6/10, language := "en", created_at := "d2",
      all_scores := none } ]

/-- C3: over a non-empty set of in-period records, `stats` reports
`highConfidenceRatio` equal to the count of records with confidence `≥ 0.8`
divided by the in-period record count; a record with confidence exactly
`0.8` is counted as high-confidence; the spec's three-record scenario
(0.93, 0.81, 0.6) yields `2/3`, which the dashboard's fallback reports as
the percentage `200/3`. -/
theorem stats_highConfidenceRatio_spec (store : List AnalysisRecord)
    (lo hi : Nat) (h : 0 < queryTotalCount store lo hi) :
    statsHighConfidenceRatio store lo hi
        = (highConfCount store lo hi : ℚ) / (queryTotalCount store lo hi : ℚ)
    ∧ (∀ r : AnalysisRecord, inRange lo hi r = true →
        r.confidence = 8/10 →
        highConfCount (r :: store) lo hi = highConfCount store lo hi + 1)
    ∧ statsHighConfidenceRatio specScenarioStore 1 2 = 2/3
    ∧ (fallbackStats specScenarioItems 0).high_confidence_percentage
        = 200/3 := by
  refine ⟨?_, fun r hr hc => ?_, ?_, ?_⟩
  · rw [statsHighConfidenceRatio, if_neg (Nat.pos_iff_ne_zero.mp h)]
  · have hd : (8 : ℚ)/10 ≤ r.confidence := hc ▸ le_refl _
    simp [highConfCount, List.filter_cons, hr, hd]
  · norm_num [statsHighConfidenceRatio, highConfCount, queryTotalCount,
      specScenarioStore, inRange, List.filter_cons]
  · norm_num [fallbackStats, specScenarioItems, List.filter_cons]

/-- C3 witness: the spec scenario instantiates the theorem, and its ratio
is `2/3`. -/
theorem stats_highConfidenceRatio_spec_witness :
    0 < queryTotalCount specScenarioStore 1 2
    ∧ statsHighConfidenceRatio specScenarioStore 1 2 = 2/3 :=
  ⟨by decide,
    (stats_highConfidenceRatio_spec specScenarioStore 1 2 (by decide)).2.2.1⟩

/-- C9: the client's `getStats` maps its integer `days` argument onto the
period strings by the thresholds 7, 30 and 90: `days ≤ 7 ↦ "7d"`,
`7 < days ≤ 30 ↦ "30d"`, `30 < days ≤ 90 ↦ "90d"`, larger values `↦ "1y"`;
zero and negative day counts land in the first bucket `"7d"`. -/
theorem getStats_period_buckets (days : Int) :
    (days ≤ 7 → getStatsPeriod days = "7d")
    ∧ (7 < days → days ≤ 30 → getStatsPeriod days = "30d")
    ∧ (30 < days → days ≤ 90 → getStatsPeriod days = "90d")
    ∧ (90 < days → getStatsPeriod days = "1y")
    ∧ getStatsPeriod 0 = "7d" ∧ getStatsPeriod (-5) = "7d" := by
  refine ⟨fun h => ?_, fun h1 h2 => ?_, fun h1 h2 => ?_, fun h => ?_, ?_, ?_⟩
  · simp [getStatsPeriod, h]
  · simp [getStatsPeriod, h2, not_le.mpr h1]
  · have h7 : ¬ days ≤ 7 := by omega
    have h30 : ¬ days ≤ 30 := by omega
    simp [getStatsPeriod, h7, h30, h2]
  · have h7 : ¬ days ≤ 7 := by omega
    have h30 : ¬ days ≤ 30 := by omega
    have h90 : ¬ days ≤ 90 := by omega
    simp [getStatsPeriod, h7, h30, h90]
  · rfl
  · rfl

/-- C9 witness: concrete instantiation at `days = 20`. -/
theorem getStats_period_buckets_witness :
    ((7 : Int) < 20 ∧ (20 : Int) ≤ 30) ∧ getStatsPeriod 20 = "30d" :=
  ⟨by decide, (getStats_period_buckets 20).2.1 (by decide) (by decide)⟩

/-- C10: for every item of a history response, the item delivered by
`getHistory` carries the backend's `text` when that is non-empty, otherwise
the backend's `text_preview` when present, otherwise the empty string; every
other field of the item is unchanged, and the response's items are exactly
the mapped items. -/
theorem getHistory_text_mapping (resp : HistoryResponse) (item : HistoryItem) :
    (getHistoryMap resp).items = resp.items.map mapHistoryItem
    ∧ (item.text ≠ "" → (mapHistoryItem item).text = item.text)
    ∧ (item.text = "" → ∀ p, item.text_preview = some p →
        (mapHistoryItem item).text = p)
    ∧ (item.text = "" → item.text_preview = none →
        (mapHistoryItem item).text = "")
    ∧ (mapHistoryItem item).id = item.id
    ∧ (mapHistoryItem item).text_preview = item.text_preview
    ∧ (mapHistoryItem item).sentiment = item.sentiment
    ∧ (mapHistoryItem item).confidence = item.confidence
    ∧ (mapHistoryItem item).language = item.language
    ∧ (mapHistoryItem item).created_at = item.created_at
    ∧ (mapHistoryItem item).all_scores = item.all_scores := by
  refine ⟨rfl, fun h => ?_, fun h p hp => ?_, fun h hp => ?_,
    rfl, rfl, rfl, rfl, rfl, rfl, rfl⟩
  · simp [mapHistoryItem, h]
  · simp [mapHistoryItem, h, hp]
  · simp [mapHistoryItem, h, hp]

/-- C10 witness: a concrete item with empty `text` and a present
`text_preview` is delivered with `text` equal to the preview. -/
theorem getHistory_text_mapping_witness :
    ("" : String) = "" ∧
    (mapHistoryItem
      { id := "a1", text := "", text_preview := some "hello",
        sentiment := .positive, confidence := 9/10, language := "en",
        created_at := "2025-01-01", all_scores := none }).text = "hello" :=
  ⟨rfl, (getHistory_text_mapping ⟨[], ⟨0⟩⟩
      { id := "a1", text := "", text_preview := some "hello",
        sentiment := .positive, confidence := 9/10, language := "en",
        created_at := "2025-01-01", all_scores := none }).2.2.1
    rfl "hello" rfl⟩

/-! ## RecordStore.delete (modelled from the spec, §4.4) -/

/-- Modelled from the spec: `RecordStore.delete(id) -> bool` (spec §4.4) —
removes the record when present and reports `true`, otherwise reports the
not-found signal `false`; the result is a plain boolean (plus the new
store), so a missing id is a signal, never an error.  The backend store is
not under `src/`. -/
def rsDelete (store : List AnalysisRecord) (i : Nat) :
    Bool × List AnalysisRecord :=
  if store.any (fun r => decide (r.id = i)) then
    (true, store.filter (fun r => ! decide (r.id = i)))
  else
    (false, store)

/-- C4: deleting an id that is present succeeds with `true`, and deleting
the same id again on the resulting store reports the not-found signal
`false`; both calls return a boolean, never an error. -/
theorem delete_twice (store : List AnalysisRecord) (i : Nat)
    (h : store.any (fun r => decide (r.id = i)) = true) :
    (rsDelete store i).1 = true
    ∧ (rsDelete (rsDelete store i).2 i).1 = false := by
  refine ⟨by simp [rsDelete, h], ?_⟩
  have h2 : (rsDelete store i).2
      = store.filter (fun r => ! decide (r.id = i)) := by
    simp [rsDelete, h]
  rw [h2]
  have hnone : ¬ (store.filter (fun r => ! decide (r.id = i))).any
      (fun r => decide (r.id = i)) = true := by
    intro hc
    rcases List.any_eq_true.mp hc with ⟨r, hmem, hid⟩
    have hkeep := (List.mem_filter.mp hmem).2
    rw [hid] at hkeep
    exact absurd hkeep (by decide)
  simp [rsDelete, hnone]

/-- The single record of the C4 witness store. -/
def delRecord : AnalysisRecord :=
  { id := 7, text := "x", sentiment := .neutral, confidence := 0,
    language := "en", all_scores := [], created_at := 5, cached := false }

/-- C4 witness: a one-record store, deleting its id twice. -/
theorem delete_twice_witness :
    [delRecord].any (fun r => decide (r.id = 7)) = true
    ∧ ((rsDelete [delRecord] 7).1 = true
       ∧ (rsDelete (rsDelete [delRecord] 7).2 7).1 = false) :=
  ⟨by decide, delete_twice [delRecord] 7 (by decide)⟩

/-! ## LogsPage pagination (pages/LogsPage) -/

/-- The page-count computation of `LogsPage`:
`const totalPages = Math.ceil(total / limit)` with the fixed page size
`limit = 15`. -/
def lpTotalPages (total : Nat) : Nat := ⌈(total : ℚ) / 15⌉₊

/-- A click on one of the two pagination buttons of `LogsPage`. -/
inductive Nav where
  | prev
  | next
deriving DecidableEq

/-- One navigation step of `LogsPage`: the previous-button handler
`setPage(p => Math.max(1, p - 1))` and the next-button handler
`setPage(p => Math.min(totalPages, p + 1))`. -/
def navStep (tp p : Nat) : Nav → Nat
  | .prev => max 1 (p - 1)
  | .next => min tp (p + 1)

/-- The page reached from `p` after a sequence of navigation clicks. -/
def navSeq (tp p : Nat) : List Nav → Nat
  | [] => p
  | s :: rest => navSeq tp (navStep tp p s) rest

/-- Any navigation sequence keeps the page in `[1, totalPages]`, provided
there is at least one page. -/
theorem navSeq_bounds (tp : Nat) (htp : 1 ≤ tp) :
    ∀ (steps : List Nav) (p : Nat), 1 ≤ p → p ≤ tp →
      1 ≤ navSeq tp p steps ∧ navSeq tp p steps ≤ tp := by
  intro steps
  induction steps with
  | nil => exact fun p h1 h2 => ⟨h1, h2⟩
  | cons s rest ih =>
    intro p h1 h2
    refine ih (navStep tp p s) ?_ ?_ <;>
      cases s <;> simp only [navStep] <;> omega

/-- C5 counterexample: with a reported total of `0`, the page number
(initially `1`, and unchanged by the empty navigation sequence) is not
within `[1, ceil(0 / 15)] = [1, 0]`, since `lpTotalPages 0 = 0 < 1`. -/
theorem pagination_bounds_cex :
    navSeq (lpTotalPages 0) 1 [] = 1 ∧ ¬ (1 ≤ lpTotalPages 0) := by
  refine ⟨rfl, ?_⟩
  simp [lpTotalPages]

/-- C5 (amended): for every reported total of at least one record, the page
count equals `ceil(total / 15)`, and starting from page `1` every sequence
of previous/next clicks keeps the 1-indexed page number within
`[1, ceil(total / 15)]`. -/
theorem pagination_bounds (total : Nat) (h : 1 ≤ total)
    (steps : List Nav) :
    lpTotalPages total = ⌈(total : ℚ) / 15⌉₊
    ∧ 1 ≤ navSeq (lpTotalPages total) 1 steps
    ∧ navSeq (lpTotalPages total) 1 steps ≤ lpTotalPages total := by
  have htp : 1 ≤ lpTotalPages total := by
    rw [lpTotalPages, Nat.one_le_ceil_iff]
    have h0 : 0 < (total : ℚ) := by exact_mod_cast h
    positivity
  exact ⟨rfl, navSeq_bounds (lpTotalPages total) htp steps 1 le_rfl htp⟩

/-- C5 witness: 16 records give 2 pages; next, next, previous lands on a
page within `[1, 2]`. -/
theorem pagination_bounds_witness :
    (1 : Nat) ≤ 16
    ∧ (lpTotalPages 16 = ⌈(16 : ℚ) / 15⌉₊
       ∧ 1 ≤ navSeq (lpTotalPages 16) 1 [Nav.next, Nav.next, Nav.prev]
       ∧ navSeq (lpTotalPages 16) 1 [Nav.next, Nav.next, Nav.prev]
          ≤ lpTotalPages 16) :=
  ⟨by decide, pagination_bounds 16 (by decide) [Nav.next, Nav.next, Nav.prev]⟩

/-! ## LogsPage.loadHistory — filters, client-side search, total
(pages/LogsPage, backend query modelled from spec §4.4) -/

/-- Whether `pat` occurs at the head of `s` (character lists). -/
def charsPre : List Char → List Char → Bool
  | [], _ => true
  | _ :: _, [] => false
  | a :: as, b :: bs => (a == b) && charsPre as bs

/-- Whether `pat` occurs somewhere in `s` (character lists). -/
def charsSub (pat : List Char) : List Char → Bool
  | [] => charsPre pat []
  | c :: rest => charsPre pat (c :: rest) || charsSub pat rest

/-- Character-wise lower-casing (JavaScript `toLowerCase()` on the ASCII
texts at play). -/
def lowerChars (s : List Char) : List Char := s.map Char.toLower

/-- JavaScript `s.includes(pat)`. -/
def strIncludes (s pat : String) : Bool := charsSub pat.toList s.toList

/-- JavaScript `s.toLowerCase().includes(pat.toLowerCase())`. -/
def strIncludesLower (s pat : String) : Bool :=
  charsSub (lowerChars pat.toList) (lowerChars s.toList)

/-- The backend-side filter LogsPage sends: the optional sentiment label
(`if (filterSentiment !== 'all') filters.sentiment = filterSentiment`). -/
def itemMatches (f : Option Sentiment) (i : HistoryItem) : Bool :=
  match f with
  | none => true
  | some s => decide (i.sentiment = s)

/-- Modelled from the spec: `RecordStore.query` (spec §4.4) as invoked by
`LogsPage` — the page slice of the records matching the sent filters, plus
the total count matching those filters independent of pagination; the
backend store is not under `src/`.  Records are carried in their serialized
`HistoryItem` form; the sort (by `created_at`, stable on id) permutes the
matching records and is omitted, as the claims concern membership and
counts only. -/
def historyQuery (store : List HistoryItem) (f : Option Sentiment)
    (page limit : Nat) : List HistoryItem × Nat :=
  (((store.filter (itemMatches f)).drop ((page - 1) * limit)).take limit,
   (store.filter (itemMatches f)).length)

/-- The client-side text filter of `LogsPage.loadHistory`: with a
non-empty search term, keep the fetched items whose lower-cased text
contains the lower-cased term, or whose id contains the term verbatim. -/
def lpTextFilter (term : String) (items : List HistoryItem) :
    List HistoryItem :=
  if term = "" then items
  else items.filter (fun i =>
    strIncludesLower i.text term || strIncludes i.id term)

/-- The pipeline of `LogsPage.loadHistory`: fetch one page from the backend with the
sentiment filter, apply the text filter client-side to that page only, and
report the backend's total (`setTotal(response.pagination.total)`). -/
def loadHistoryModel (store : List HistoryItem) (f : Option Sentiment)
    (page limit : Nat) (term : String) : List HistoryItem × Nat :=
  let q := historyQuery store f page limit
  (lpTextFilter term q.1, q.2)

/-- A record matches all of LogsPage's filters combined with AND: the
sentiment filter and the free-text substring filter (the latter vacuous
for an empty term). -/
def matchesAllFilters (f : Option Sentiment) (term : String)
    (i : HistoryItem) : Bool :=
  itemMatches f i
    && (decide (term = "") || strIncludesLower i.text term
          || strIncludes i.id term)

/-- First item of the C2 counterexample store: its text contains the
search term. -/
def searchItem1 : HistoryItem :=
  { id := "aa1", text := "hello world", text_preview := none,
    sentiment := .positive, confidence := 9/10, language := "en",
    created_at := "t1", all_scores := none }

/-- Second item of the C2 counterexample store: its text does not contain
the search term. -/
def searchItem2 : HistoryItem :=
  { id := "bb2", text := "goodbye", text_preview := none,
    sentiment := .negative, confidence := 7/10, language := "en",
    created_at := "t2", all_scores := none }

/-- The two-record store of the C2 counterexample. -/
def searchStore : List HistoryItem := [searchItem1, searchItem2]

/-- C2 counterexample: with search term "hello" over two records of which
one matches, `loadHistory` reports total `2` — the count matching only the
non-substring filters — while the number of records matching all filters
combined with AND is `1`. -/
theorem logs_search_total_cex :
    (loadHistoryModel searchStore none 1 15 "hello").2
      ≠ (searchStore.filter (matchesAllFilters none "hello")).length := by
  decide

/-- C2 (amended): the total reported by `loadHistory` equals the number of
records matching the non-substring filters only; the items delivered are
exactly those of the fetched page whose lower-cased text contains the
lower-cased term or whose id contains the term, and every delivered item
does match all filters combined with AND. -/
theorem logs_search_characterization (store : List HistoryItem)
    (f : Option Sentiment) (page limit : Nat) (term : String)
    (hterm : term ≠ "") :
    (loadHistoryModel store f page limit term).2
        = (store.filter (itemMatches f)).length
    ∧ (∀ i, i ∈ (loadHistoryModel store f page limit term).1 ↔
        (i ∈ ((store.filter (itemMatches f)).drop
                ((page - 1) * limit)).take limit
         ∧ (strIncludesLower i.text term || strIncludes i.id term) = true))
    ∧ (∀ i, i ∈ (loadHistoryModel store f page limit term).1 →
        matchesAllFilters f term i = true) := by
  have hshown : (loadHistoryModel store f page limit term).1
      = (((store.filter (itemMatches f)).drop
            ((page - 1) * limit)).take limit).filter
          (fun i => strIncludesLower i.text term || strIncludes i.id term) := by
    simp [loadHistoryModel, historyQuery, lpTextFilter, hterm]
  refine ⟨rfl, fun i => ?_, fun i hi => ?_⟩
  · rw [hshown, List.mem_filter]
  · rw [hshown, List.mem_filter] at hi
    have hmem : i ∈ store.filter (itemMatches f) :=
      List.mem_of_mem_drop (List.mem_of_mem_take hi.1)
    have hm : itemMatches f i = true := (List.mem_filter.mp hmem).2
    have hsub := hi.2
    rw [Bool.or_eq_true] at hsub
    simp only [matchesAllFilters, hm, Bool.true_and, Bool.or_eq_true,
      decide_eq_true_eq]
    rcases hsub with hs | hs
    · exact Or.inl (Or.inr hs)
    · exact Or.inr hs

/-- C2 witness: the counterexample store instantiates the amended claim;
the reported total is the sentiment-filter count. -/
theorem logs_search_characterization_witness :
    ("hello" : String) ≠ ""
    ∧ (loadHistoryModel searchStore none 1 15 "hello").2
        = (searchStore.filter (itemMatches none)).length :=
  ⟨by decide,
    (logs_search_characterization searchStore none 1 15 "hello"
      (by decide)).1⟩

/-! ## ResultCache (modelled from the spec, §3 and §4.2) -/

/-- Modelled from the spec: a `CacheEntry` (spec §3) — fingerprint key,
serialized value, expiry instant; the backend cache is not under `src/`. -/
structure CacheEntry where
  key : String
  value : String
  expires_at : Nat
deriving DecidableEq

/-- Modelled from the spec: the ResultCache's live tier (spec §4.2) as a
list of entries, most recent write first. -/
structure CacheState where
  entries : List CacheEntry
deriving DecidableEq

/-- Modelled from the spec: `ResultCache.put(key, value, ttl)` at instant
`now` (spec §4.2) — the entry expires at `now + ttl`; a put for an
existing key replaces it (last writer wins). -/
def cachePut (st : CacheState) (k v : String) (ttl now : Nat) : CacheState :=
  ⟨⟨k, v, now + ttl⟩ :: st.entries.filter (fun e => ! decide (e.key = k))⟩

/-- Modelled from the spec: `ResultCache.get(key)` at instant `now`
(spec §4.2) — a miss and an expired entry are both observed as "not
found". -/
def cacheGet (st : CacheState) (k : String) (now : Nat) : Option String :=
  match st.entries.find? (fun e => decide (e.key = k)) with
  | some e => if now < e.expires_at then some e.value else none
  | none => none

/-- Modelled from the spec: `ResultCache.invalidate(key)` (spec §4.2). -/
def cacheInvalidate (st : CacheState) (k : String) : CacheState :=
  ⟨st.entries.filter (fun e => ! decide (e.key = k))⟩

/-- A put operation, for sequences of intervening writes. -/
structure PutOp where
  key : String
  value : String
  ttl : Nat
  time : Nat
deriving DecidableEq

/-- Apply a sequence of put operations in order. -/
def applyPuts (st : CacheState) : List PutOp → CacheState
  | [] => st
  | op :: ops => applyPuts (cachePut st op.key op.value op.ttl op.time) ops

/-- Looking up key `k` is unchanged by filtering out entries of a
different key. -/
theorem find?_filter_ne_key (l : List CacheEntry) (k k' : String)
    (h : k' ≠ k) :
    (l.filter (fun e => ! decide (e.key = k'))).find?
        (fun e => decide (e.key = k))
      = l.find? (fun e => decide (e.key = k)) := by
  induction l with
  | nil => rfl
  | cons e rest ih =>
    by_cases he' : e.key = k'
    · have hek : ¬ e.key = k := by rw [he']; exact h
      rw [List.filter_cons, if_neg (by simp [he']), ih,
        List.find?_cons_of_neg rest (by simpa using hek)]
    · by_cases hek : e.key = k
      · rw [List.filter_cons, if_pos (by simp [he']),
          List.find?_cons_of_pos _ (by simpa using hek),
          List.find?_cons_of_pos rest (by simpa using hek)]
      · rw [List.filter_cons, if_pos (by simp [he']),
          List.find?_cons_of_neg _ (by simpa using hek),
          List.find?_cons_of_neg rest (by simpa using hek), ih]

/-- A put for a different key does not disturb the lookup of `k`. -/
theorem find?_cachePut_ne (st : CacheState) (k k' v' : String)
    (ttl now : Nat) (h : k' ≠ k) :
    (cachePut st k' v' ttl now).entries.find? (fun e => decide (e.key = k))
      = st.entries.find? (fun e => decide (e.key = k)) := by
  show List.find? (fun e => decide (e.key = k))
      (⟨k', v', now + ttl⟩
        :: st.entries.filter (fun e => ! decide (e.key = k')))
    = _
  rw [List.find?_cons_of_neg _ (by simpa using h),
    find?_filter_ne_key st.entries k k' h]

/-- A sequence of puts for other keys does not disturb the lookup of `k`. -/
theorem find?_applyPuts_ne (ops : List PutOp) :
    ∀ (st : CacheState) (k : String), (∀ op ∈ ops, op.key ≠ k) →
      (applyPuts st ops).entries.find? (fun e => decide (e.key = k))
        = st.entries.find? (fun e => decide (e.key = k)) := by
  induction ops with
  | nil => intro st k _; rfl
  | cons op rest ih =>
    intro st k hops
    rw [applyPuts, ih _ k (fun o ho => hops o (List.mem_cons_of_mem op ho)),
      find?_cachePut_ne st k op.key op.value op.ttl op.time
        (hops op (List.mem_cons_self op rest))]

/-- C6: after `put k v` at `t0` with time-to-live `ttl`, a `get k` at any
instant before `t0 + ttl` returns exactly `v`, regardless of any
intervening sequence of puts for other keys — the cached response is a
pure function of the fingerprint key, not of request order. -/
theorem cache_get_pure_in_fingerprint (st : CacheState) (k v : String)
    (ttl t0 : Nat) (ops : List PutOp) (t : Nat)
    (hops : ∀ op ∈ ops, op.key ≠ k) (ht : t < t0 + ttl) :
    cacheGet (applyPuts (cachePut st k v ttl t0) ops) k t = some v := by
  rw [cacheGet, find?_applyPuts_ne ops (cachePut st k v ttl t0) k hops]
  have hfind : (cachePut st k v ttl t0).entries.find?
      (fun e => decide (e.key = k)) = some ⟨k, v, t0 + ttl⟩ := by
    simp [cachePut, List.find?_cons]
  rw [hfind]
  exact if_pos ht

/-- The intervening put of the C6 witness: a write for a different key. -/
def otherPut : PutOp :=
  { key := "fp2", value := "other", ttl := 5, time := 1 }

/-- C6 witness: a put of `"res"` under key `"fp1"`, an intervening put for
key `"fp2"`, and a get before expiry. -/
theorem cache_get_pure_in_fingerprint_witness :
    (∀ op ∈ [otherPut], op.key ≠ "fp1")
    ∧ (3 : Nat) < 0 + 10
    ∧ cacheGet (applyPuts (cachePut ⟨[]⟩ "fp1" "res" 10 0) [otherPut])
        "fp1" 3 = some "res" :=
  ⟨by decide, by decide,
    cache_get_pure_in_fingerprint ⟨[]⟩ "fp1" "res" 10 0 [otherPut] 3
      (by decide) (by decide)⟩

/-! ## RateLimiter (modelled from the spec, §3 and §4.3) -/

/-- Modelled from the spec: a `RateWindow` (spec §3) — the counter bucket
of one (client, endpoint) pair for one fixed window; the backend limiter
is not under `src/`. -/
structure RateWindow where
  window_start : Nat
  count : Nat
deriving DecidableEq

/-- The outcome `allow` reports: the decision, plus the retry-after
seconds carried with a limit-exceeded rejection (spec §4.3, §6). -/
structure AllowResult where
  allowed : Bool
  retryAfterSeconds : Nat
deriving DecidableEq

/-- Modelled from the spec: `RateLimiter.allow` on one fixed window
(spec §4.3) — increments the window's counter, allows while the counter
stays within the limit, and otherwise rejects with the seconds until the
window resets (`window_start + winLen - now`). -/
def rlAllow (limit winLen now : Nat) (w : RateWindow) :
    AllowResult × RateWindow :=
  let c := w.count + 1
  if c ≤ limit then (⟨true, 0⟩, ⟨w.window_start, c⟩)
  else (⟨false, w.window_start + winLen - now⟩, ⟨w.window_start, c⟩)

/-- The window state after `n` consecutive `allow` calls. -/
def rlIterate (limit winLen now : Nat) (w : RateWindow) : Nat → RateWindow
  | 0 => w
  | n + 1 => (rlAllow limit winLen now (rlIterate limit winLen now w n)).2

/-- Each call increments the counter by one and preserves the window
start. -/
theorem rlIterate_count (limit winLen now : Nat) (w : RateWindow) :
    ∀ n, (rlIterate limit winLen now w n).count = w.count + n
      ∧ (rlIterate limit winLen now w n).window_start = w.window_start := by
  intro n
  induction n with
  | zero => exact ⟨rfl, rfl⟩
  | succ m ih =>
    have h1 := ih.1
    have h2 := ih.2
    simp only [rlIterate, rlAllow]
    by_cases hc : (rlIterate limit winLen now w m).count + 1 ≤ limit
    · rw [if_pos hc]
      refine ⟨?_, ?_⟩
      · show (rlIterate limit winLen now w m).count + 1 = w.count + (m + 1)
        omega
      · show (rlIterate limit winLen now w m).window_start = w.window_start
        exact h2
    · rw [if_neg hc]
      refine ⟨?_, ?_⟩
      · show (rlIterate limit winLen now w m).count + 1 = w.count + (m + 1)
        omega
      · show (rlIterate limit winLen now w m).window_start = w.window_start
        exact h2

/-- C7: on a fresh fixed window, each of the first `limit` calls to
`allow` returns true, and the `(limit+1)`-th call within the same window
(any instant `now` before the window resets) returns false together with
a positive `retryAfterSeconds`. -/
theorem rateLimiter_fixed_window (limit winLen start now : Nat)
    (hnow : now < start + winLen) :
    (∀ k, 1 ≤ k → k ≤ limit →
      ((rlAllow limit winLen now
          (rlIterate limit winLen now ⟨start, 0⟩ (k - 1))).1).allowed
        = true)
    ∧ ((rlAllow limit winLen now
          (rlIterate limit winLen now ⟨start, 0⟩ limit)).1).allowed = false
    ∧ 0 < ((rlAllow limit winLen now
          (rlIterate limit winLen now ⟨start, 0⟩ limit)).1).retryAfterSeconds
    := by
  have hcnt := rlIterate_count limit winLen now ⟨start, 0⟩
  refine ⟨fun k hk1 hk2 => ?_, ?_, ?_⟩
  · have hc : (rlIterate limit winLen now ⟨start, 0⟩ (k - 1)).count + 1
        ≤ limit := by
      rw [(hcnt (k - 1)).1]
      show 0 + (k - 1) + 1 ≤ limit
      omega
    simp only [rlAllow]
    rw [if_pos hc]
  · have hc : ¬ ((rlIterate limit winLen now ⟨start, 0⟩ limit).count + 1
        ≤ limit) := by
      rw [(hcnt limit).1]
      show ¬ (0 + limit + 1 ≤ limit)
      omega
    simp only [rlAllow]
    rw [if_neg hc]
  · have hc : ¬ ((rlIterate limit winLen now ⟨start, 0⟩ limit).count + 1
        ≤ limit) := by
      rw [(hcnt limit).1]
      show ¬ (0 + limit + 1 ≤ limit)
      omega
    simp only [rlAllow]
    rw [if_neg hc]
    show 0 < (rlIterate limit winLen now ⟨start, 0⟩ limit).window_start
      + winLen - now
    rw [(hcnt limit).2]
    show 0 < start + winLen - now
    omega

/-- C7 witness: limit 3, a 60-second window starting at 0, queried at
instant 10: the third call passes, the fourth is rejected with a positive
retry-after. -/
theorem rateLimiter_fixed_window_witness :
    (10 : Nat) < 0 + 60
    ∧ ((rlAllow 3 60 10 (rlIterate 3 60 10 ⟨0, 0⟩ (3 - 1))).1).allowed
        = true
    ∧ ((rlAllow 3 60 10 (rlIterate 3 60 10 ⟨0, 0⟩ 3)).1).allowed = false
    ∧ 0 < ((rlAllow 3 60 10 (rlIterate 3 60 10 ⟨0, 0⟩ 3)).1).retryAfterSeconds
    := by
  have h := rateLimiter_fixed_window 3 60 0 10 (by decide)
  exact ⟨by decide, h.1 3 (by decide) (by decide), h.2.1, h.2.2⟩

/-! ## AnalyticsAggregator.dailyVolume (modelled from the spec, §4.5) -/

/-- One entry of the daily-volume series (`AnalyticsResponse.daily_volume`
in `frontend/src/types`): date, count and average confidence. -/
structure DayVolume where
  date : Nat
  count : Nat
  avg_confidence : ℚ
deriving DecidableEq

/-- The number of records created on day `d`. -/
def dayCount (store : List AnalysisRecord) (d : Nat) : Nat :=
  (store.filter (fun r => decide (r.created_at = d))).length

/-- The average confidence of the records created on day `d` (zero on an
empty day). -/
def dayAvg (store : List AnalysisRecord) (d : Nat) : ℚ :=
  ((store.filter (fun r => decide (r.created_at = d))).map
      (fun r => r.confidence)).sum / (dayCount store d : ℚ)

/-- Modelled from the spec: `AnalyticsAggregator.dailyVolume(timeRange)`
(spec §4.5) — a dense, date-ordered series with one entry per day of the
range, zero-count days included; the backend aggregator is not under
`src/`. -/
def dailyVolume (store : List AnalysisRecord) (startDay numDays : Nat) :
    List DayVolume :=
  (List.range numDays).map (fun o =>
    ⟨startDay + o, dayCount store (startDay + o), dayAvg store (startDay + o)⟩)

/-- A record on day 1, for the C8 example range. -/
def volRecord1 : AnalysisRecord :=
  { id := 11, text := "p", sentiment := .positive, confidence := 9/10,
    language := "en", all_scores := [], created_at := 1, cached := false }

/-- A record on day 3, for the C8 example range. -/
def volRecord3 : AnalysisRecord :=
  { id := 12, text := "q", sentiment := .negative, confidence := 7/10,
    language := "en", all_scores := [], created_at := 3, cached := false }

/-- The C8 example store: records on day 1 and day 3 only. -/
def volStore : List AnalysisRecord := [volRecord1, volRecord3]

/-- C8: over an `n`-day range, `dailyVolume` has exactly `n` entries, the
entry at offset `o` carrying date `startDay + o` (dense, date order) with
that day's record count and average confidence; on the concrete 3-day
range with no records on the middle day, the series is exactly 3 entries
with counts `1, 0, 1`. -/
theorem dailyVolume_dense (store : List AnalysisRecord) (s n : Nat) :
    (dailyVolume store s n).length = n
    ∧ (∀ o, o < n → (dailyVolume store s n)[o]? =
        some ⟨s + o, dayCount store (s + o), dayAvg store (s + o)⟩)
    ∧ (dailyVolume volStore 1 3).map (fun e => (e.date, e.count))
        = [(1, 1), (2, 0), (3, 1)] := by
  refine ⟨by simp [dailyVolume], fun o ho => ?_, by decide⟩
  simp [dailyVolume, List.getElem?_map, List.getElem?_range, ho]

/-- C8 witness: the middle day of the example range is present with count
zero. -/
theorem dailyVolume_dense_witness :
    (1 : Nat) < 3
    ∧ (dailyVolume volStore 1 3)[1]?
        = some ⟨1 + 1, dayCount volStore (1 + 1), dayAvg volStore (1 + 1)⟩ :=
  ⟨by decide, (dailyVolume_dense volStore 1 3).2.1 1 (by decide)⟩
